import Mathlib

/-!
Verification development for the two QA screenshot scripts of this
repository: `match-screenshot.py` (multi-scale template matcher that crops
the matched region) and `smart-capture.py` (header-visibility heuristic and
single-scale scroll locator).

Modelling conventions of the shallow embedding:

* A decoded OpenCV/PIL image buffer is modelled by `CVImg`: its pixel grid
  dimensions (`h` rows, `w` columns) and the grayscale intensity of each
  pixel.  `cv2.imread` results are `Option CVImg` (`none` models a null
  buffer, i.e. a decode failure).
* Python floats used for the scale factors are modelled exactly as rational
  scale pairs `(num, den)`; `int(d * s)` becomes the natural-number formula
  `d * num / den` (floor division), which agrees with the source on the
  inputs considered here.
* `cv2.matchTemplate` + `cv2.minMaxLoc` (normalized cross-correlation,
  `TM_CCOEFF_NORMED`) is a library primitive whose numeric output depends on
  pixel data; it is abstracted by a parameter
  `mt : Nat → Nat → ℚ × Nat × Nat` mapping the resized template dimensions
  `(w, h)` used for the call to `(max_val, max_loc.x, max_loc.y)`.  The two
  images of one call are fixed, so this captures exactly the information the
  scripts extract from the primitive.
* `cv2.Canny` output on the inspected top region is likewise abstracted by a
  function `canny : Nat → Nat → Nat` giving the edge-map value per pixel.
* Scores and ratios are rationals (`ℚ`); `0.3`, `0.05`, `10` become
  `3/10`, `1/20`, `10`.
-/

set_option linter.unusedVariables false

/-- A decoded image buffer: `h` rows, `w` columns, and the grayscale
intensity at each (row, column) position (the `cv2.cvtColor ... BGR2GRAY`
view of the pixel data). -/
structure CVImg where
  h : Nat
  w : Nat
  gray : Nat → Nat → Nat

/-! ### match-screenshot.py -/

/-- The fixed ordered scale sweep `[0.5, 0.75, 0.9, 1.0, 1.1, 1.25, 1.5]`
of `match_template`, each factor represented exactly as `(num, den)`. -/
def scales : List (Nat × Nat) :=
  [(1, 2), (3, 4), (9, 10), (1, 1), (11, 10), (5, 4), (3, 2)]

/-- `int(d * tmpl_scale)` for a dimension `d` and a scale `(num, den)`. -/
def scaledDim (d : Nat) (s : Nat × Nat) : Nat :=
  d * s.1 / s.2

/-- Dimensions `(width, height)` of `full_page_scaled`: if both viewport
dimensions are given and truthy (nonzero), the page is resized to the
viewport width preserving aspect ratio (`new_h = int(full_h * scale)` with
`scale = viewport_width / full_w`); otherwise it is left unscaled. -/
def scaledPage (fullW fullH : Nat) (vw vh : Option Nat) : Nat × Nat :=
  if vw.getD 0 ≠ 0 ∧ vh.getD 0 ≠ 0 then
    (vw.getD 0, fullH * vw.getD 0 / fullW)
  else
    (fullW, fullH)

/-- State of the scale sweep: `best_val`, `best_scale`, `best_loc`, and
whether `best_match` has been set (the source also stores the dict
`best_match`, whose fields are recomputed from these after the loop). -/
structure SweepState where
  best_val : ℚ
  best_scale : Nat × Nat
  best_loc : Option (Nat × Nat)
  found : Bool
  deriving DecidableEq

/-- Initial sweep state: `best_val = -1`, `best_scale = 1.0`,
`best_loc = None`, `best_match = None`. -/
def initSweep : SweepState :=
  { best_val := -1, best_scale := (1, 1), best_loc := none, found := false }

/-- The state recorded when a scale improves on the current best. -/
def mkState (s : Nat × Nat) (r : ℚ × Nat × Nat) : SweepState :=
  { best_val := r.1, best_scale := s, best_loc := some (r.2.1, r.2.2),
    found := true }

/-- One scale of the sweep, as the loop body sees it: `none` when the
`continue` branch is taken (`scaled_tmpl_w >= scaled_w or
scaled_tmpl_h >= scaled_h`), otherwise the `(max_val, max_loc)` result of
the matching call at the resized template dimensions. -/
def sweepF (mt : Nat → Nat → ℚ × Nat × Nat) (pageW pageH tmplW tmplH : Nat)
    (s : Nat × Nat) : Option (ℚ × Nat × Nat) :=
  let sw := scaledDim tmplW s
  let sh := scaledDim tmplH s
  if sw ≥ pageW ∨ sh ≥ pageH then none
  else some (mt sw sh)

/-- The scale-sweep loop: fold over the scale list, skipping scales where
the loop body `continue`s and otherwise updating the best state exactly
when `max_val > best_val` (strict comparison). -/
def sweepGo (f : Nat × Nat → Option (ℚ × Nat × Nat)) :
    SweepState → List (Nat × Nat) → SweepState
  | st, [] => st
  | st, s :: rest =>
    match f s with
    | none => sweepGo f st rest
    | some r => sweepGo f (if r.1 > st.best_val then mkState s r else st) rest

/-- The whole sweep of `match_template` over the fixed scale list. -/
def mtSweep (mt : Nat → Nat → ℚ × Nat × Nat) (pageW pageH tmplW tmplH : Nat) :
    SweepState :=
  sweepGo (sweepF mt pageW pageH tmplW tmplH) initSweep scales

/-- Result of `match_template`, mirroring the three return dicts of the
source.  `err` is the `{"error": ...}` dict; `fallback` is the
`{'success': True, ..., 'fallback': True, 'output': ...}` dict; `success`
is the full-match dict `{'success': True, 'confidence', 'match_location',
'match_size', 'template_scale', 'output'}`.  `out_w`/`out_h` record the
pixel dimensions of the image written to the output path by `cv2.imwrite`
on that return path. -/
inductive MTResult where
  | err (msg : String)
  | fallback (confidence : ℚ) (output : String) (out_w out_h : Nat)
  | success (confidence : ℚ) (x y w h : Nat) (template_scale : Nat × Nat)
      (output : String) (out_w out_h : Nat)
  deriving DecidableEq

/-- The `confidence` field of the returned dict, when present. -/
def MTResult.confidence : MTResult → Option ℚ
  | .err _ => none
  | .fallback c _ _ _ => some c
  | .success c _ _ _ _ _ _ _ _ => some c

/-- The `error` field of the returned dict, when present. -/
def MTResult.errorField : MTResult → Option String
  | .err msg => some msg
  | .fallback _ _ _ _ => none
  | .success _ _ _ _ _ _ _ _ _ => none

/-- `match_template` from `match-screenshot.py`.  The decode results of
the two `cv2.imread` calls are passed as `Option CVImg`; `mt` abstracts
the `cv2.matchTemplate`/`minMaxLoc` primitive on the grayscale pair
(see the module docstring).  Faithful points: null-buffer checks and their
error strings; viewport rescale; the sweep over `scales`; the fallback
branch taken when `best_match is None or best_val < 0.3`, whose written
crop is `full_page_scaled[0:min(tmpl_h, scaled_h), 0:min(tmpl_w, scaled_w)]`
and whose confidence is `best_val if best_val else 0`; the success branch,
whose crop is resized to `(tmpl_w, tmpl_h)` before writing. -/
def match_template (full_page template : Option CVImg)
    (full_page_path template_path output_path : String)
    (viewport_width viewport_height : Option Nat)
    (mt : Nat → Nat → ℚ × Nat × Nat) : MTResult :=
  match full_page with
  | none => .err ("Could not load full page image: " ++ full_page_path)
  | some fp =>
    match template with
    | none => .err ("Could not load template image: " ++ template_path)
    | some tm =>
      let scaledW := (scaledPage fp.w fp.h viewport_width viewport_height).1
      let scaledH := (scaledPage fp.w fp.h viewport_width viewport_height).2
      let fin := mtSweep mt scaledW scaledH tm.w tm.h
      if fin.found = false ∨ fin.best_val < 3 / 10 then
        .fallback (if fin.best_val ≠ 0 then fin.best_val else 0) output_path
          (min tm.w scaledW) (min tm.h scaledH)
      else
        let x := (fin.best_loc.getD (0, 0)).1
        let y := (fin.best_loc.getD (0, 0)).2
        let w := scaledDim tm.w fin.best_scale
        let h := scaledDim tm.h fin.best_scale
        .success fin.best_val x y w h fin.best_scale output_path tm.w tm.h

/-! ### smart-capture.py -/

/-- Number of rows of the inspected top region of
`detect_header_visible`: `min(100, height)`. -/
def topRows (im : CVImg) : Nat :=
  min 100 im.h

/-- `total_pixels = gray.size` for the top region. -/
def topRegionSize (im : CVImg) : Nat :=
  topRows im * im.w

/-- `np.sum(gray < 50)`: the number of pixels of the top region whose
grayscale intensity is below 50, summed row by row over the flattened
array. -/
def darkPixels (im : CVImg) : Nat :=
  Finset.sum (Finset.range (topRows im)) (fun r =>
    ((Finset.range im.w).filter (fun c => im.gray r c < 50)).card)

/-- `np.sum(edges)` over the Canny edge map of the top region. -/
def cannySum (im : CVImg) (canny : Nat → Nat → Nat) : Nat :=
  Finset.sum (Finset.range (topRows im)) (fun r =>
    Finset.sum (Finset.range im.w) (fun c => canny r c))

/-- `detect_header_visible` from `smart-capture.py`: on a decode failure
return `True` (default to viewport capture); otherwise inspect the top
`min(100, height)` rows and return
`dark_ratio > 0.05 or horizontal_lines > 10`, where
`dark_ratio = np.sum(gray < 50) / total_pixels` and
`horizontal_lines = np.sum(Canny(gray, 50, 150)) / total_pixels`.
`canny` abstracts the `cv2.Canny` output on the region. -/
def detect_header_visible (img : Option CVImg) (canny : Nat → Nat → Nat) :
    Bool :=
  match img with
  | none => true
  | some im =>
    let total := topRegionSize im
    let dark_ratio : ℚ := (darkPixels im : ℚ) / (total : ℚ)
    let horizontal_lines : ℚ := (cannySum im canny : ℚ) / (total : ℚ)
    decide (dark_ratio > 1 / 20 ∨ horizontal_lines > 10)

/-- Result of `find_scroll_position`, mirroring its two return dicts:
`default0` is `{'scroll_y': 0, 'confidence': 0}` (returned both on a null
buffer and when the rescaled template is too tall), `found` is the full
dict `{'scroll_y', 'confidence', 'match_x', 'template_height'}`. -/
inductive FSPResult where
  | default0
  | found (scroll_y : Nat) (confidence : ℚ) (match_x : Nat)
      (template_height : Nat)
  deriving DecidableEq

/-- The `scroll_y` field of the returned dict. -/
def FSPResult.scroll_y : FSPResult → Nat
  | .default0 => 0
  | .found y _ _ _ => y

/-- The `confidence` field of the returned dict. -/
def FSPResult.confidence : FSPResult → ℚ
  | .default0 => 0
  | .found _ c _ _ => c

/-- The `error` field of the returned dict: neither return dict of
`find_scroll_position` carries one. -/
def FSPResult.errorField : FSPResult → Option String
  | _ => none

/-- Template dimensions `(tmpl_w, tmpl_h)` after the width normalization of
`find_scroll_position`: when the widths differ the template is resized to
`(full_w, int(tmpl_h * scale))` with `scale = full_w / tmpl_w`. -/
def fspScaledTmpl (fp tm : CVImg) : Nat × Nat :=
  if tm.w ≠ fp.w then (fp.w, tm.h * fp.w / tm.w)
  else (tm.w, tm.h)

/-- `find_scroll_position` from `smart-capture.py`.  Decode results are
`Option CVImg`; `mt` abstracts `cv2.matchTemplate`/`minMaxLoc` on the
grayscale pair as a function of the (rescaled) template dimensions.
On a null buffer for either image, returns `{'scroll_y': 0,
'confidence': 0}`; after width normalization, returns the same default if
`tmpl_h >= full_h`; otherwise runs one matching call and returns
`{'scroll_y': max_loc[1], 'confidence': max_val, 'match_x': max_loc[0],
'template_height': tmpl_h}`. -/
def find_scroll_position (full_page template : Option CVImg)
    (mt : Nat → Nat → ℚ × Nat × Nat) : FSPResult :=
  match full_page, template with
  | some fp, some tm =>
    let d := fspScaledTmpl fp tm
    if d.2 ≥ fp.h then .default0
    else
      let r := mt d.1 d.2
      .found r.2.2 r.1 r.2.1 d.2
  | _, _ => .default0

/-- The capture-instructions dict built by `analyze_capture_requirements`.
Optional fields are `none` when the corresponding key is absent from the
dict. -/
structure CaptureResult where
  viewport_width : Nat
  viewport_height : Nat
  capture_type : String
  header_visible : Bool
  scroll_y : Option Nat
  match_confidence : Option ℚ
  needs_full_page : Option Bool
  deriving DecidableEq

/-- `analyze_capture_requirements` from `smart-capture.py`.  `dims` is the
`(width, height)` answer of `get_image_dimensions` on the Feedbucket URL;
`detectImg` and `canny` feed `detect_header_visible`; `full_page` is
`none` when no `--full-page` path was supplied, and otherwise carries the
decode result of that path; `fspTemplate` is the decode result of the
second download of the Feedbucket URL inside `find_scroll_position`. -/
def analyze_capture_requirements (dims : Nat × Nat)
    (detectImg : Option CVImg) (canny : Nat → Nat → Nat)
    (full_page : Option (Option CVImg)) (fspTemplate : Option CVImg)
    (mt : Nat → Nat → ℚ × Nat × Nat) : CaptureResult :=
  let header_visible := detect_header_visible detectImg canny
  let base : CaptureResult :=
    { viewport_width := dims.1
      viewport_height := dims.2
      capture_type := if header_visible then "viewport" else "scroll_match"
      header_visible := header_visible
      scroll_y := none
      match_confidence := none
      needs_full_page := none }
  if header_visible = false ∧ full_page.isSome then
    let scroll_info := find_scroll_position (full_page.getD none) fspTemplate mt
    { base with
        scroll_y := some scroll_info.scroll_y
        match_confidence := some scroll_info.confidence }
  else if header_visible = false then
    { base with needs_full_page := some true }
  else
    base

/-! ### Input-string routing (URL vs local path) -/

/-- Python's `s.startswith(pre)`, modelled on the character lists of the
two strings. -/
def startswith (s pre : String) : Bool :=
  pre.data.isPrefixOf s.data

/-- How an input string reaches the decoder: downloaded to a fixed
temporary path first, or passed to the decoder directly. -/
inductive LoadSource where
  | download (url : String) (temp_path : String)
  | direct (path : String)
  deriving DecidableEq

/-- Routing of `load_image` in `match-screenshot.py`. -/
def load_image_route (s : String) : LoadSource :=
  if startswith s "http" then .download s "/tmp/feedbucket_template.jpg"
  else .direct s

/-- Routing of `get_image_dimensions` in `smart-capture.py`. -/
def get_image_dimensions_route (s : String) : LoadSource :=
  if startswith s "http" then .download s "/tmp/feedbucket_check.jpg"
  else .direct s

/-- Routing of `detect_header_visible` in `smart-capture.py`. -/
def detect_header_visible_route (s : String) : LoadSource :=
  if startswith s "http" then .download s "/tmp/feedbucket_detect.jpg"
  else .direct s

/-- Routing of the template argument of `find_scroll_position` in
`smart-capture.py`. -/
def find_scroll_position_route (s : String) : LoadSource :=
  if startswith s "http" then .download s "/tmp/feedbucket_template.jpg"
  else .direct s

/-! ### Helper lemmas about the scale sweep -/

/-- Folding the sweep over an appended list processes the parts in order. -/
theorem sweepGo_append (f : Nat × Nat → Option (ℚ × Nat × Nat))
    (st : SweepState) (A B : List (Nat × Nat)) :
    sweepGo f st (A ++ B) = sweepGo f (sweepGo f st A) B := by
  induction A generalizing st with
  | nil => rfl
  | cons s rest ih =>
    simp only [List.cons_append, sweepGo]
    cases hf : f s with
    | none => exact ih st
    | some r => exact ih _

/-- The sweep either leaves the state unchanged or ends in the state
recorded for some scale of the list whose loop body ran. -/
theorem sweepGo_shape (f : Nat × Nat → Option (ℚ × Nat × Nat))
    (st : SweepState) (l : List (Nat × Nat)) :
    sweepGo f st l = st ∨
      ∃ s ∈ l, ∃ r, f s = some r ∧ sweepGo f st l = mkState s r := by
  induction l generalizing st with
  | nil => exact Or.inl rfl
  | cons s rest ih =>
    simp only [sweepGo]
    cases hf : f s with
    | none =>
      rcases ih st with h | ⟨s1, hs1, r1, hr1, heq⟩
      · exact Or.inl h
      · exact Or.inr ⟨s1, List.mem_cons_of_mem _ hs1, r1, hr1, heq⟩
    | some r =>
      dsimp only
      by_cases hgt : r.1 > st.best_val
      · rw [if_pos hgt]
        rcases ih (mkState s r) with h | ⟨s1, hs1, r1, hr1, heq⟩
        · exact Or.inr ⟨s, List.mem_cons_self s rest, r, hf, h⟩
        · exact Or.inr ⟨s1, List.mem_cons_of_mem _ hs1, r1, hr1, heq⟩
      · rw [if_neg hgt]
        rcases ih st with h | ⟨s1, hs1, r1, hr1, heq⟩
        · exact Or.inl h
        · exact Or.inr ⟨s1, List.mem_cons_of_mem _ hs1, r1, hr1, heq⟩

/-- If no scale of the list strictly improves on the current best value,
the sweep leaves the state unchanged. -/
theorem sweepGo_stable (f : Nat × Nat → Option (ℚ × Nat × Nat))
    (st : SweepState) (l : List (Nat × Nat))
    (h : ∀ s ∈ l, ∀ r, f s = some r → ¬ r.1 > st.best_val) :
    sweepGo f st l = st := by
  induction l with
  | nil => rfl
  | cons s rest ih =>
    simp only [sweepGo]
    cases hf : f s with
    | none => exact ih (fun s1 hs1 r hr => h s1 (List.mem_cons_of_mem _ hs1) r hr)
    | some r =>
      dsimp only
      rw [if_neg (h s (List.mem_cons_self s rest) r hf)]
      exact ih (fun s1 hs1 r1 hr1 => h s1 (List.mem_cons_of_mem _ hs1) r1 hr1)

/-- Inversion for the loop body: when a scale is not skipped, the recorded
result is exactly the matching call at the resized template dimensions. -/
theorem sweepF_some (mt : Nat → Nat → ℚ × Nat × Nat)
    (pageW pageH tmplW tmplH : Nat) (s : Nat × Nat) (r : ℚ × Nat × Nat)
    (h : sweepF mt pageW pageH tmplW tmplH s = some r) :
    r = mt (scaledDim tmplW s) (scaledDim tmplH s) := by
  unfold sweepF at h
  by_cases hc : scaledDim tmplW s ≥ pageW ∨ scaledDim tmplH s ≥ pageH
  · simp [hc] at h
  · simp [hc] at h
    exact h.symm

/-! ### Concrete inputs used by witnesses and counterexamples -/

/-- A concrete 4 x 4 decoded page image. -/
def cimg4 : CVImg := { h := 4, w := 4, gray := fun _ _ => 0 }

/-- A concrete 10 x 10 decoded image. -/
def cimg10 : CVImg := { h := 10, w := 10, gray := fun _ _ => 0 }

/-- A second concrete 10 x 10 decoded image. -/
def cimg10b : CVImg := { h := 10, w := 10, gray := fun _ _ => 7 }

/-- A concrete 20 x 20 decoded image. -/
def cimg20 : CVImg := { h := 20, w := 20, gray := fun _ _ => 0 }

/-- A concrete 100 x 100 decoded image. -/
def cimg100 : CVImg := { h := 100, w := 100, gray := fun _ _ => 0 }

/-- A concrete matching oracle that always scores 0 at location (0, 0). -/
def mtZero : Nat → Nat → ℚ × Nat × Nat := fun _ _ => (0, 0, 0)

/-- A concrete matching oracle that always scores 1 at location (3, 4). -/
def mtOne : Nat → Nat → ℚ × Nat × Nat := fun _ _ => (1, 3, 4)

/-! ### C1 -/

/-- C1 (amended): the image `match_template` writes has the original
template's pixel dimensions on the best-match path; on the
low-confidence/no-viable-scale fallback path it instead has dimensions
`(min tmpl_w scaled_w, min tmpl_h scaled_h)`, the top-left crop of the
(possibly rescaled) page, which equal the template's dimensions only when
that page is at least as large as the template in both dimensions. -/
theorem C1_output_dims (fp tm : CVImg) (p1 p2 op : String)
    (vw vh : Option Nat) (mt : Nat → Nat → ℚ × Nat × Nat) :
    (∀ c x y w h sc o ow oh,
      match_template (some fp) (some tm) p1 p2 op vw vh mt =
        .success c x y w h sc o ow oh → ow = tm.w ∧ oh = tm.h) ∧
    (∀ c o ow oh,
      match_template (some fp) (some tm) p1 p2 op vw vh mt =
        .fallback c o ow oh →
        ow = min tm.w (scaledPage fp.w fp.h vw vh).1 ∧
        oh = min tm.h (scaledPage fp.w fp.h vw vh).2) := by
  constructor
  · intro c x y w h sc o ow oh heq
    simp only [match_template] at heq
    split at heq
    · exact absurd heq (by simp)
    · simp only [MTResult.success.injEq] at heq
      exact ⟨heq.2.2.2.2.2.2.2.1.symm, heq.2.2.2.2.2.2.2.2.symm⟩
  · intro c o ow oh heq
    simp only [match_template] at heq
    split at heq
    · simp only [MTResult.fallback.injEq] at heq
      exact ⟨heq.2.2.1.symm, heq.2.2.2.symm⟩
    · exact absurd heq (by simp)

/-- Witness for C1: on a concrete full match the written image has the
template's 20 x 20 dimensions. -/
theorem C1_output_dims_witness :
    ∀ c x y w h sc o ow oh,
      match_template (some cimg100) (some cimg20) "full.png" "tmpl.png"
        "out.png" none none mtOne = .success c x y w h sc o ow oh →
      ow = cimg20.w ∧ oh = cimg20.h :=
  (C1_output_dims cimg100 cimg20 "full.png" "tmpl.png" "out.png"
    none none mtOne).1

/-- Counterexample for C1 as stated: with a 4 x 4 page and a 10 x 10
template no scale is viable, and the fallback writes a 4 x 4 image, not a
10 x 10 one — the output dimensions differ from the template's. -/
theorem C1_counterexample :
    match_template (some cimg4) (some cimg10) "full.png" "tmpl.png"
      "out.png" none none mtZero = .fallback (-1) "out.png" 4 4 ∧
    cimg10.w = 10 ∧ cimg10.h = 10 ∧ (4 : Nat) ≠ 10 := by
  exact ⟨by decide, rfl, rfl, by decide⟩

/-! ### C2 -/

/-- C2: if the template's dimensions strictly exceed the (possibly
rescaled) full page at every scale of the sweep, `match_template` returns
the fallback dict (`success: True`, `fallback: True`) and writes the
top-left crop of the page of width `min tmpl_w scaled_w` and height
`min tmpl_h scaled_h`; no exception is raised (the function is total and
returns this value). -/
theorem C2_no_viable_scale_fallback (fp tm : CVImg) (p1 p2 op : String)
    (vw vh : Option Nat) (mt : Nat → Nat → ℚ × Nat × Nat)
    (hall : ∀ s ∈ scales,
      (scaledPage fp.w fp.h vw vh).1 < scaledDim tm.w s ∨
      (scaledPage fp.w fp.h vw vh).2 < scaledDim tm.h s) :
    match_template (some fp) (some tm) p1 p2 op vw vh mt =
      .fallback (-1) op (min tm.w (scaledPage fp.w fp.h vw vh).1)
        (min tm.h (scaledPage fp.w fp.h vw vh).2) := by
  have hsweep : mtSweep mt (scaledPage fp.w fp.h vw vh).1
      (scaledPage fp.w fp.h vw vh).2 tm.w tm.h = initSweep := by
    unfold mtSweep
    apply sweepGo_stable
    intro s hs r hr
    exfalso
    have hskip : scaledDim tm.w s ≥ (scaledPage fp.w fp.h vw vh).1 ∨
        scaledDim tm.h s ≥ (scaledPage fp.w fp.h vw vh).2 := by
      rcases hall s hs with h | h
      · exact Or.inl (le_of_lt h)
      · exact Or.inr (le_of_lt h)
    unfold sweepF at hr
    rw [if_pos hskip] at hr
    exact Option.noConfusion hr
  simp only [match_template, hsweep]
  have hcond : initSweep.found = false ∨ initSweep.best_val < 3 / 10 :=
    Or.inl rfl
  rw [if_pos hcond,
    if_pos (show initSweep.best_val ≠ 0 by norm_num [initSweep])]
  rfl

/-- Witness for C2: the 4 x 4 page / 10 x 10 template instance, where
every scale is infeasible and the claimed fallback is returned. -/
theorem C2_no_viable_scale_fallback_witness :
    match_template (some cimg4) (some cimg10) "page.png" "feed.png"
      "crop.png" none none mtZero =
      .fallback (-1) "crop.png" (min cimg10.w 4) (min cimg10.h 4) :=
  C2_no_viable_scale_fallback cimg4 cimg10 "page.png" "feed.png"
    "crop.png" none none mtZero (by decide)

/-! ### C3 -/

/-- C3 (amended): in the scale sweep of `match_template`, a scale from the
fixed ordered set is skipped exactly when the resized template would be
larger than **or equal to** the (possibly rescaled) full page in either
dimension (the source compares with `>=`); at every other scale the
normalized cross-correlation matching call runs at the resized template
dimensions. -/
theorem C3_skip_condition (mt : Nat → Nat → ℚ × Nat × Nat)
    (pageW pageH tmplW tmplH : Nat) (s : Nat × Nat) (hs : s ∈ scales) :
    (sweepF mt pageW pageH tmplW tmplH s = none ↔
      pageW ≤ scaledDim tmplW s ∨ pageH ≤ scaledDim tmplH s) ∧
    (scaledDim tmplW s < pageW → scaledDim tmplH s < pageH →
      sweepF mt pageW pageH tmplW tmplH s =
        some (mt (scaledDim tmplW s) (scaledDim tmplH s))) := by
  constructor
  · unfold sweepF
    by_cases hc : scaledDim tmplW s ≥ pageW ∨ scaledDim tmplH s ≥ pageH
    · simp [hc]
    · simp [hc]
  · intro h1 h2
    unfold sweepF
    rw [if_neg]
    push_neg
    exact ⟨h1, h2⟩

/-- Witness for C3: at scale 0.5 a 20 x 20 template resized to 10 x 10
fits strictly inside a 100 x 100 page, so the matching call runs there. -/
theorem C3_skip_condition_witness :
    (sweepF mtOne 100 100 20 20 (1, 2) = none ↔
      100 ≤ scaledDim 20 (1, 2) ∨ 100 ≤ scaledDim 20 (1, 2)) ∧
    (scaledDim 20 (1, 2) < 100 → scaledDim 20 (1, 2) < 100 →
      sweepF mtOne 100 100 20 20 (1, 2) =
        some (mtOne (scaledDim 20 (1, 2)) (scaledDim 20 (1, 2)))) :=
  C3_skip_condition mtOne 100 100 20 20 (1, 2) (by decide)

/-- Counterexample for C3 as stated: with a 10 x 10 page and a 20 x 20
template, scale 0.5 resizes the template to exactly 10 x 10 — not larger
than the page in either dimension — yet the sweep skips it. -/
theorem C3_counterexample :
    sweepF mtOne 10 10 20 20 (1, 2) = none ∧
    scaledDim 20 (1, 2) = 10 ∧ ¬ 10 < scaledDim 20 (1, 2) ∧
    (1, 2) ∈ scales := by
  refine ⟨?_, by decide, by decide, by decide⟩
  unfold sweepF
  rw [if_pos]
  exact Or.inl (by decide)

/-! ### C4 -/

/-- C4: `match_template` tracks a single best (score, location, scale)
triple across all tried scales, and the first scale in iteration order
(the lower scale factor) that attains the best score wins ties: whenever a
scale `s1` of the sweep scores at least as high as every other tried scale
— strictly higher than every earlier one only because earlier equal scores
would already occupy the best slot, so the hypotheses say: every earlier
tried scale scores strictly below `s1`, every later tried scale scores at
most `s1`'s score (equality allowed) — the returned location, size and
`template_scale` are the ones of `s1`.  In particular a later scale with a
score equal to `s1`'s never displaces it. -/
theorem C4_first_best_wins (fp tm : CVImg) (p1 p2 op : String)
    (vw vh : Option Nat) (mt : Nat → Nat → ℚ × Nat × Nat)
    (A B : List (Nat × Nat)) (s1 : Nat × Nat) (r1 : ℚ × Nat × Nat)
    (hsplit : scales = A ++ s1 :: B)
    (hs1 : sweepF mt (scaledPage fp.w fp.h vw vh).1
      (scaledPage fp.w fp.h vw vh).2 tm.w tm.h s1 = some r1)
    (hA : ∀ s ∈ A, ∀ r, sweepF mt (scaledPage fp.w fp.h vw vh).1
      (scaledPage fp.w fp.h vw vh).2 tm.w tm.h s = some r → r.1 < r1.1)
    (hB : ∀ s ∈ B, ∀ r, sweepF mt (scaledPage fp.w fp.h vw vh).1
      (scaledPage fp.w fp.h vw vh).2 tm.w tm.h s = some r → r.1 ≤ r1.1)
    (hconf : 3 / 10 ≤ r1.1) :
    match_template (some fp) (some tm) p1 p2 op vw vh mt =
      .success r1.1 r1.2.1 r1.2.2 (scaledDim tm.w s1) (scaledDim tm.h s1)
        s1 op tm.w tm.h := by
  have hneg1 : (-1 : ℚ) < r1.1 := lt_of_lt_of_le (by norm_num) hconf
  have hfin : mtSweep mt (scaledPage fp.w fp.h vw vh).1
      (scaledPage fp.w fp.h vw vh).2 tm.w tm.h = mkState s1 r1 := by
    unfold mtSweep
    rw [hsplit, sweepGo_append]
    have hstA : (sweepGo (sweepF mt (scaledPage fp.w fp.h vw vh).1
        (scaledPage fp.w fp.h vw vh).2 tm.w tm.h) initSweep A).best_val <
        r1.1 := by
      rcases sweepGo_shape (sweepF mt (scaledPage fp.w fp.h vw vh).1
          (scaledPage fp.w fp.h vw vh).2 tm.w tm.h) initSweep A with
        h | ⟨s, hsA, r, hr, heq⟩
      · rw [h]
        exact hneg1
      · rw [heq]
        exact hA s hsA r hr
    simp only [sweepGo, hs1]
    rw [if_pos hstA]
    apply sweepGo_stable
    intro s hsB r hr
    exact not_lt.mpr (hB s hsB r hr)
  simp only [match_template, hfin]
  rw [if_neg]
  · rfl
  · push_neg
    exact ⟨by simp [mkState], hconf⟩

/-- Witness for C4: a 100 x 100 page and 20 x 20 template where every
scale is tried and every scale scores exactly 1 — an all-way tie.  The
first scale of the sweep, 0.5, wins: the result reports its location,
its 10 x 10 resized size, and `template_scale` 0.5. -/
theorem C4_first_best_wins_witness :
    match_template (some cimg100) (some cimg20) "full.png" "tmpl.png"
      "out.png" none none mtOne =
      .success 1 3 4 (scaledDim 20 (1, 2)) (scaledDim 20 (1, 2)) (1, 2)
        "out.png" 20 20 := by
  have h := C4_first_best_wins cimg100 cimg20 "full.png" "tmpl.png"
    "out.png" none none mtOne []
    [(3, 4), (9, 10), (1, 1), (11, 10), (5, 4), (3, 2)] (1, 2) (1, 3, 4)
    rfl rfl (by intro s hs r hr; cases hs)
    (by
      intro s hs r hr
      fin_cases hs <;>
        · simp only [sweepF, scaledDim, scaledPage, cimg100, cimg20,
            mtOne] at hr
          norm_num at hr
          rw [← hr])
    (by norm_num)
  exact h

/-! ### C5 -/

/-- C5 (amended): every confidence value in a result returned by
`match_template` lies in the range -1.0 to 1.0 (not 0.0 to 1.0), provided
every matching score does — the property of `TM_CCOEFF_NORMED`
correlation.  In particular the no-viable-scale fallback reports the
sentinel initial value -1, which is what the source's
`best_val if best_val else 0` yields there. -/
theorem C5_confidence_range (fp tm : CVImg) (p1 p2 op : String)
    (vw vh : Option Nat) (mt : Nat → Nat → ℚ × Nat × Nat)
    (hmt : ∀ w h, -1 ≤ (mt w h).1 ∧ (mt w h).1 ≤ 1) :
    ∀ c, (match_template (some fp) (some tm) p1 p2 op vw vh mt).confidence =
      some c → -1 ≤ c ∧ c ≤ 1 := by
  intro c hc
  have hbound : -1 ≤ (mtSweep mt (scaledPage fp.w fp.h vw vh).1
      (scaledPage fp.w fp.h vw vh).2 tm.w tm.h).best_val ∧
      (mtSweep mt (scaledPage fp.w fp.h vw vh).1
        (scaledPage fp.w fp.h vw vh).2 tm.w tm.h).best_val ≤ 1 := by
    unfold mtSweep
    rcases sweepGo_shape (sweepF mt (scaledPage fp.w fp.h vw vh).1
        (scaledPage fp.w fp.h vw vh).2 tm.w tm.h) initSweep scales with
      h | ⟨s, hs, r, hr, heq⟩
    · rw [h]
      constructor <;> norm_num [initSweep]
    · rw [heq]
      have hrr := sweepF_some mt (scaledPage fp.w fp.h vw vh).1
        (scaledPage fp.w fp.h vw vh).2 tm.w tm.h s r hr
      show -1 ≤ r.1 ∧ r.1 ≤ 1
      rw [hrr]
      exact hmt _ _
  simp only [match_template] at hc
  split at hc
  · simp only [MTResult.confidence] at hc
    by_cases hz : (mtSweep mt (scaledPage fp.w fp.h vw vh).1
        (scaledPage fp.w fp.h vw vh).2 tm.w tm.h).best_val ≠ 0
    · rw [if_pos hz] at hc
      rw [← Option.some_inj.mp hc]
      exact hbound
    · rw [if_neg hz] at hc
      rw [← Option.some_inj.mp hc]
      constructor <;> norm_num
  · simp only [MTResult.confidence] at hc
    rw [← Option.some_inj.mp hc]
    exact hbound

/-- Witness for C5: with a 4 x 4 page and 10 x 10 template (no viable
scale) the reported confidence is the sentinel -1, which lies in the
amended range [-1, 1]. -/
theorem C5_confidence_range_witness :
    -1 ≤ (-1 : ℚ) ∧ (-1 : ℚ) ≤ 1 :=
  C5_confidence_range cimg4 cimg10 "full.png" "tmpl.png" "out.png"
    none none mtOne
    (by intro w h; constructor <;> norm_num [mtOne]) (-1) (by decide)

/-- Counterexample for C5 as stated: on the no-viable-scale input the
returned confidence is -1, which does not lie in the range 0.0 to 1.0. -/
theorem C5_counterexample :
    (match_template (some cimg4) (some cimg10) "full.png" "tmpl.png"
      "out.png" none none mtZero).confidence = some (-1) ∧
    ¬ (0 : ℚ) ≤ -1 := by
  constructor
  · decide
  · norm_num

/-! ### C6 -/

/-- The row-by-row dark-pixel count equals the number of dark pixels of
the top region counted as a set of (row, column) positions. -/
theorem darkPixels_eq_card (im : CVImg) :
    darkPixels im =
      (((Finset.range (topRows im)) ×ˢ (Finset.range im.w)).filter
        (fun p => im.gray p.1 p.2 < 50)).card := by
  rw [Finset.card_filter, Finset.sum_product]
  unfold darkPixels
  apply Finset.sum_congr rfl
  intro r hr
  rw [Finset.card_filter]

/-- A concrete all-zero Canny edge map. -/
def canny0 : Nat → Nat → Nat := fun _ _ => 0

/-- A concrete uniformly light 2 x 2 image (all intensities 200). -/
def cimgLight : CVImg := { h := 2, w := 2, gray := fun _ _ => 200 }

/-- C6: for every successfully decoded image, `detect_header_visible`
returns true iff, over the top `min 100 h` rows, the fraction of grayscale
pixels with intensity below 50 exceeds 0.05, or the summed edge-detector
output divided by the region's pixel count exceeds 10; in particular a
region with no dark pixels and no edges yields false. -/
theorem C6_header_heuristic (im : CVImg) (canny : Nat → Nat → Nat) :
    (detect_header_visible (some im) canny = true ↔
      (((((Finset.range (min 100 im.h)) ×ˢ (Finset.range im.w)).filter
          (fun p => im.gray p.1 p.2 < 50)).card : ℚ) /
            ((min 100 im.h * im.w : Nat) : ℚ) > 1 / 20 ∨
        (cannySum im canny : ℚ) / ((min 100 im.h * im.w : Nat) : ℚ) > 10)) ∧
    (darkPixels im = 0 → cannySum im canny = 0 →
      detect_header_visible (some im) canny = false) := by
  constructor
  · simp only [detect_header_visible, decide_eq_true_eq, topRegionSize,
      topRows, darkPixels_eq_card im]
  · intro h0 hc0
    simp only [detect_header_visible, h0, hc0]
    rw [decide_eq_false_iff_not]
    push_neg
    constructor <;> norm_num

/-- Witness for C6: a uniformly light 2 x 2 image with an all-zero edge
map has no dark pixels and no edges, and is classified as
header-not-visible. -/
theorem C6_header_heuristic_witness :
    detect_header_visible (some cimgLight) canny0 = false :=
  (C6_header_heuristic cimgLight canny0).2 (by decide) (by decide)

/-! ### C7 -/

/-- A concrete 20 x 10 (h x w) full-page image. -/
def cimgTall : CVImg := { h := 20, w := 10, gray := fun _ _ => 0 }

/-- A concrete 5 x 5 template image. -/
def cimgSmall : CVImg := { h := 5, w := 5, gray := fun _ _ => 0 }

/-- C7 (amended): `find_scroll_position`, when the widths differ, rescales
the template horizontally to the full page's width (height becomes
`int(tmpl_h * full_w / tmpl_w)`); it skips matching, without raising, when
the rescaled template's height is greater than **or equal to** the
full-page height (the source compares with `>=`, so a template exactly as
tall as the page is also skipped); only when the rescaled height is
strictly smaller does it run the single matching call and return the
match's y-coordinate as `scroll_y` together with its confidence. -/
theorem C7_scroll_locator (fp tm : CVImg) (mt : Nat → Nat → ℚ × Nat × Nat) :
    (tm.w ≠ fp.w → fspScaledTmpl fp tm = (fp.w, tm.h * fp.w / tm.w)) ∧
    (fp.h ≤ (fspScaledTmpl fp tm).2 →
      find_scroll_position (some fp) (some tm) mt = .default0) ∧
    ((fspScaledTmpl fp tm).2 < fp.h →
      find_scroll_position (some fp) (some tm) mt =
        .found (mt (fspScaledTmpl fp tm).1 (fspScaledTmpl fp tm).2).2.2
          (mt (fspScaledTmpl fp tm).1 (fspScaledTmpl fp tm).2).1
          (mt (fspScaledTmpl fp tm).1 (fspScaledTmpl fp tm).2).2.1
          (fspScaledTmpl fp tm).2) := by
  refine ⟨?_, ?_, ?_⟩
  · intro hne
    unfold fspScaledTmpl
    rw [if_pos hne]
  · intro hge
    simp only [find_scroll_position]
    rw [if_pos hge]
  · intro hlt
    simp only [find_scroll_position]
    rw [if_neg (not_le.mpr hlt)]

/-- Witness for C7: a 5 x 5 template against a 20-tall, 10-wide page is
rescaled to 10 x 10; that fits strictly, so matching runs and the oracle's
best location (3, 4) is reported as `match_x` 3 and `scroll_y` 4. -/
theorem C7_scroll_locator_witness :
    fspScaledTmpl cimgTall cimgSmall = (10, 10) ∧
    find_scroll_position (some cimgTall) (some cimgSmall) mtOne =
      .found 4 1 3 10 := by
  constructor
  · exact (C7_scroll_locator cimgTall cimgSmall mtOne).1 (by decide)
  · exact (C7_scroll_locator cimgTall cimgSmall mtOne).2.2 (by decide)

/-- Counterexample for C7 as stated: a template whose (unrescaled) height
exactly equals the full-page height — so it does not exceed it — is
nevertheless skipped: the result is the `{'scroll_y': 0, 'confidence': 0}`
default, not a matching result. -/
theorem C7_counterexample :
    find_scroll_position (some cimg10) (some cimg10b) mtOne = .default0 ∧
    (fspScaledTmpl cimg10 cimg10b).2 = 10 ∧ cimg10.h = 10 ∧
    ¬ (10 : Nat) > 10 := by
  exact ⟨by decide, by decide, rfl, by decide⟩

/-! ### C8 -/

/-- C8: the record returned by `analyze_capture_requirements` always
carries `viewport_width`, `viewport_height`, `capture_type` and
`header_visible`; `capture_type` is `"viewport"` exactly when the header
heuristic returned true and `"scroll_match"` otherwise; `scroll_y` and
`match_confidence` are present exactly when the header is not visible and
a full-page path was supplied; `needs_full_page: true` is present exactly
when the header is not visible and no full-page path was supplied. -/
theorem C8_capture_instructions (dims : Nat × Nat) (detectImg : Option CVImg)
    (canny : Nat → Nat → Nat) (full_page : Option (Option CVImg))
    (fspTemplate : Option CVImg) (mt : Nat → Nat → ℚ × Nat × Nat) :
    let r := analyze_capture_requirements dims detectImg canny full_page
      fspTemplate mt
    let hv := detect_header_visible detectImg canny
    r.viewport_width = dims.1 ∧ r.viewport_height = dims.2 ∧
    r.header_visible = hv ∧
    (r.capture_type = "viewport" ↔ hv = true) ∧
    (r.capture_type = "scroll_match" ↔ hv = false) ∧
    ((r.scroll_y.isSome ∧ r.match_confidence.isSome) ↔
      (hv = false ∧ full_page.isSome = true)) ∧
    (r.needs_full_page = some true ↔ (hv = false ∧ full_page = none)) := by
  cases hfp : full_page with
  | none =>
    cases hv : detect_header_visible detectImg canny with
    | false => simp [analyze_capture_requirements, hv]
    | true => simp [analyze_capture_requirements, hv]
  | some pg =>
    cases hv : detect_header_visible detectImg canny with
    | false => simp [analyze_capture_requirements, hv]
    | true => simp [analyze_capture_requirements, hv]

/-! ### C9 -/

/-- C9 (amended): in `match-screenshot.py`, a decode failure of either
image makes `match_template` return the `{"error": ...}` dict whose string
names the failed path or URL, without raising.  In `smart-capture.py`,
however, a decode failure does not produce an error object:
`find_scroll_position` returns the plain default
`{'scroll_y': 0, 'confidence': 0}`, which carries no error string, and
`detect_header_visible` returns `True`. -/
theorem C9_decode_failure_behavior :
    (∀ (tmpl : Option CVImg) (p1 p2 op : String) (vw vh : Option Nat)
        (mt : Nat → Nat → ℚ × Nat × Nat),
      match_template none tmpl p1 p2 op vw vh mt =
        .err ("Could not load full page image: " ++ p1)) ∧
    (∀ (fp : CVImg) (p1 p2 op : String) (vw vh : Option Nat)
        (mt : Nat → Nat → ℚ × Nat × Nat),
      match_template (some fp) none p1 p2 op vw vh mt =
        .err ("Could not load template image: " ++ p2)) ∧
    (∀ (tmpl : Option CVImg) (mt : Nat → Nat → ℚ × Nat × Nat),
      find_scroll_position none tmpl mt = .default0 ∧
      (find_scroll_position none tmpl mt).errorField = none) ∧
    (∀ (fp : Option CVImg) (mt : Nat → Nat → ℚ × Nat × Nat),
      find_scroll_position fp none mt = .default0 ∧
      (find_scroll_position fp none mt).errorField = none) ∧
    (∀ canny : Nat → Nat → Nat, detect_header_visible none canny = true) := by
  refine ⟨?_, ?_, ?_, ?_, ?_⟩
  · intro tmpl p1 p2 op vw vh mt
    rfl
  · intro fp p1 p2 op vw vh mt
    rfl
  · intro tmpl mt
    cases tmpl <;> exact ⟨rfl, rfl⟩
  · intro fp mt
    cases fp <;> exact ⟨rfl, rfl⟩
  · intro canny
    rfl

/-- Counterexample for C9 as stated: in `smart-capture.py`, when the
template fails to decode, `find_scroll_position` returns the default
`{'scroll_y': 0, 'confidence': 0}` dict — a result with no error string at
all, not a structured error object naming the failed path or URL. -/
theorem C9_counterexample :
    find_scroll_position (some cimg10) none mtOne = .default0 ∧
    FSPResult.errorField .default0 = none ∧
    FSPResult.scroll_y .default0 = 0 ∧
    FSPResult.confidence .default0 = 0 :=
  ⟨rfl, rfl, rfl, rfl⟩

/-! ### C10 -/

/-- C10: in every image-loading operation of both scripts, an input string
is routed to a download onto that operation's fixed temporary path if and
only if it starts with the four characters `"http"`, and is otherwise
passed directly to the decoder as a path; consequently a local filesystem
path beginning with `"http"` is treated as a URL. -/
theorem C10_url_classification :
    (∀ s : String,
      (load_image_route s = .download s "/tmp/feedbucket_template.jpg" ↔
        startswith s "http" = true) ∧
      (load_image_route s = .direct s ↔ startswith s "http" = false) ∧
      (get_image_dimensions_route s =
          .download s "/tmp/feedbucket_check.jpg" ↔
        startswith s "http" = true) ∧
      (get_image_dimensions_route s = .direct s ↔
        startswith s "http" = false) ∧
      (detect_header_visible_route s =
          .download s "/tmp/feedbucket_detect.jpg" ↔
        startswith s "http" = true) ∧
      (detect_header_visible_route s = .direct s ↔
        startswith s "http" = false) ∧
      (find_scroll_position_route s =
          .download s "/tmp/feedbucket_template.jpg" ↔
        startswith s "http" = true) ∧
      (find_scroll_position_route s = .direct s ↔
        startswith s "http" = false)) ∧
    load_image_route "httpdocs/logo.png" =
      .download "httpdocs/logo.png" "/tmp/feedbucket_template.jpg" := by
  constructor
  · intro s
    cases hs : startswith s "http" <;>
      simp [load_image_route, get_image_dimensions_route,
        detect_header_visible_route, find_scroll_position_route, hs]
  · decide
